import Mathlib

/-!
Shallow embedding of the WhatsApp lead-qualification bot's dialogue core
(`dialogue_manager.py`, `conversation_store.py`, `llm_adapter.py`) and proofs
about the frozen specification claims.

Python `str`/`dict`/`int` values are modelled with `String`,
association lists (`List (String × _)`, insertion-ordered like Python dicts)
and `Int`/`Nat`.  Python exceptions are modelled with `Except PyErr`.
All definitions are executable and structurally recursive so that concrete
runs evaluate inside the kernel.
-/

namespace WhatsappBot

/-- A Python exception escaping `process_message`. -/
inductive PyErr where
  | nameError : String → PyErr
  | typeError : String → PyErr
deriving DecidableEq, Repr

/-- A scalar value stored in `conversation_data` (Python `str` or `int`). -/
inductive Scalar where
  | s : String → Scalar
  | i : Int → Scalar
deriving DecidableEq, Repr

/-- Python `dict` lookup `d.get(k)` on an insertion-ordered association list. -/
def dictGet {α : Type} : List (String × α) → String → Option α
  | [], _ => none
  | (k', v') :: t, k => if k' == k then some v' else dictGet t k

/-- Python `dict` assignment `d[k] = v`: replace in place, else append. -/
def dictInsert {α : Type} : List (String × α) → String → α → List (String × α)
  | [], k, v => [(k, v)]
  | (k', v') :: t, k, v => if k' == k then (k, v) :: t else (k', v') :: dictInsert t k v

/-- Python `dict.update`: apply `dictInsert` for each pair, left to right. -/
def dictUpdate {α : Type} (d : List (String × α)) (upd : List (String × α)) :
    List (String × α) :=
  upd.foldl (fun acc p => dictInsert acc p.1 p.2) d

/-- Boolean test that `p` is a leading segment of `l` (character lists). -/
def isPrefixB : List Char → List Char → Bool
  | [], _ => true
  | _ :: _, [] => false
  | a :: as, b :: bs => a == b && isPrefixB as bs

/-- Boolean test that `needle` occurs contiguously inside `hay`. -/
def isInfixB : List Char → List Char → Bool
  | needle, [] => needle.isEmpty
  | needle, h :: t => isPrefixB needle (h :: t) || isInfixB needle t

/-- Python `needle in hay` on strings (substring containment). -/
def strContains (hay needle : String) : Bool :=
  isInfixB needle.data hay.data

/-- Python `str.startswith`. -/
def startswith (s pat : String) : Bool :=
  isPrefixB pat.data s.data

/-- ASCII lower-casing of one character, as Python `str.lower` does on the
ASCII inputs this flow deals with. -/
def pyCharLower (c : Char) : Char :=
  if 'A' ≤ c && c ≤ 'Z' then Char.ofNat (c.toNat + 32) else c

/-- Python `str.lower` (ASCII fragment). -/
def pyLower (s : String) : String :=
  String.mk (s.data.map pyCharLower)

/-- Python `str.strip` default whitespace set. -/
def pySpace (c : Char) : Bool :=
  c == ' ' || c == '\t' || c == '\n' || c == '\r' ||
  c == Char.ofNat 11 || c == Char.ofNat 12

/-- Python `str.strip()`: drop leading and trailing whitespace. -/
def pyStrip (s : String) : String :=
  String.mk (((s.data.dropWhile pySpace).reverse.dropWhile pySpace).reverse)

/-- One fuel-indexed step list for replacement; fuel bounds the scan length so
the recursion is structural (kernel-computable). -/
def replaceAux (pat rep : List Char) : Nat → List Char → List Char
  | _, [] => []
  | 0, l => l
  | fuel + 1, h :: t =>
    if isPrefixB pat (h :: t) then
      rep ++ replaceAux pat rep fuel (List.drop pat.length (h :: t))
    else
      h :: replaceAux pat rep fuel t

/-- Python `s.replace(pat, rep)` for the non-empty patterns used by the flow
(`\x7bname\x7d`, `\x7bcalendly_link\x7d`): replace all non-overlapping
occurrences left to right. -/
def pyReplace (s pat rep : String) : String :=
  if pat.data.isEmpty then s
  else String.mk (replaceAux pat.data rep.data s.data.length s.data)

/-- `re.findall(r"\d+", s)[0]` when it exists: the first maximal run of
decimal digits in `s`. -/
def firstDigitRun (s : String) : Option String :=
  let rest := s.data.dropWhile (fun c => !c.isDigit)
  let run := rest.takeWhile (fun c => c.isDigit)
  if run.isEmpty then none else some (String.mk run)

/-- Python `int` of a non-empty decimal digit string. -/
def digitsToNat (s : String) : Nat :=
  s.data.foldl (fun acc c => acc * 10 + (c.toNat - '0'.toNat)) 0

/-- One per-sender Conversation State record, exactly the dictionary built in
`DialogueManager.get_user_state`. -/
structure UserState where
  current_state : String
  conversation_data : List (String × Scalar)
  message_count : Nat
  retry_count : Nat
  outcome : Option String
deriving DecidableEq, Repr

/-- `states.INITIAL` flow config as read by `_handle_initial` (field values
carry the code's `.get` defaults applied). -/
structure InitialCfg where
  message_template : String
  next_state : String
deriving DecidableEq, Repr

/-- `states.AWAITING_INTEREST` config as read by `_handle_interest_response`. -/
structure InterestCfg where
  positive_keywords : List String
  negative_keywords : List String
  on_positive_message : String
  on_positive_next_state : String
  on_negative_message : String
  on_unclear_message : String
deriving DecidableEq, Repr

/-- `states.AWAITING_ANSWER_1` config (employment type). -/
structure Answer1Cfg where
  salaried_keywords : List String
  selfemployed_keywords : List String
  store_as : String
  on_valid_message : String
  on_invalid_message : String
deriving DecidableEq, Repr

/-- `states.AWAITING_ANSWER_2` config (income). -/
structure Answer2Cfg where
  minimum_income : Int
  store_as : String
  on_invalid_message : String
  on_below_minimum_message : String
  on_valid_message : String
deriving DecidableEq, Repr

/-- `states.AWAITING_ANSWER_3` config (residency). -/
structure Answer3Cfg where
  uae_national_keywords : List String
  expatriate_keywords : List String
  store_as : String
  on_invalid_message : String
deriving DecidableEq, Repr

/-- `states.EVALUATE_ELIGIBILITY` config (`qualification_rules` and the two
branch messages). -/
structure EligCfg where
  employment_type : List String
  monthly_income_minimum : Int
  residency_status : List String
  on_qualified_template : String
  on_not_qualified_message : String
deriving DecidableEq, Repr

/-- A `QUESTION_*` state's config as read by `_handle_question`. -/
structure QuestionCfg where
  message : String
  next_state : String
deriving DecidableEq, Repr

/-- The Flow Document as consumed by `DialogueManager`: `state_ids` is the key
set of the `states` mapping (used for the membership check in
`process_message`); the typed sections hold the per-state configuration with
the code's `.get` defaults already applied. -/
structure Flow where
  state_ids : List String
  initial : InitialCfg
  interest : InterestCfg
  answer1 : Answer1Cfg
  answer2 : Answer2Cfg
  answer3 : Answer3Cfg
  elig : EligCfg
  questions : List (String × QuestionCfg)
  calendly_link : String
  max_retries : Nat
  technical_error_message : String
  product_hook : String
deriving DecidableEq, Repr

/-- `_handle_question`'s reads `state.get('message','')` and
`state.get('next_state','END')` for a `QUESTION_*` id. -/
def question_cfg (f : Flow) (id : String) : QuestionCfg :=
  match dictGet f.questions id with
  | some c => c
  | none => { message := "", next_state := "END" }

namespace ConversationStore

/-- `ConversationStore.get`: look the sender up in the day file's mapping. -/
def get (store : List (String × UserState)) (phone : String) : Option UserState :=
  dictGet store phone

/-- `ConversationStore.set`: write the sender's record into the mapping. -/
def set (store : List (String × UserState)) (phone : String) (st : UserState) :
    List (String × UserState) :=
  dictInsert store phone st

end ConversationStore

/-- The `DialogueManager` instance state: the loaded flow, the
`GeminiAdapter.is_enabled()` capability bit, the in-memory `user_states`
cache, the Conversation Store contents, and a log of every
`ConversationStore.set` call performed (one entry appended per write). -/
structure DM where
  flow : Flow
  llm_enabled : Bool
  user_states : List (String × UserState)
  store : List (String × UserState)
  writeLog : List (String × UserState)
deriving DecidableEq, Repr

/-- `self.store.set(phone, state)` together with its entry in the write log. -/
def dm_store_set (dm : DM) (phone : String) (st : UserState) : DM :=
  { dm with
    store := ConversationStore.set dm.store phone st,
    writeLog := dm.writeLog ++ [(phone, st)] }

/-- The dictionary `get_user_state` builds for a brand-new sender:
`INITIAL` state, empty answer map, zero counters, null outcome. -/
def initial_user_state : UserState :=
  { current_state := "INITIAL", conversation_data := [],
    message_count := 0, retry_count := 0, outcome := none }

/-- `DialogueManager.get_user_state`: return the cached record; on a cache
miss restore the persisted record, else initialize a fresh `INITIAL` record.
Returns the record and the manager state (whose cache may have gained the
entry). -/
def get_user_state (dm : DM) (phone : String) : UserState × DM :=
  match dictGet dm.user_states phone with
  | some st => (st, dm)
  | none =>
    match ConversationStore.get dm.store phone with
    | some st => (st, { dm with user_states := dictInsert dm.user_states phone st })
    | none =>
      (initial_user_state,
       { dm with user_states := dictInsert dm.user_states phone initial_user_state })

/-- `DialogueManager.update_user_state`: set `current_state`, bump
`message_count`, merge `data` into `conversation_data`, and persist. -/
def update_user_state (dm : DM) (phone state : String)
    (data : List (String × Scalar)) : DM :=
  let r := get_user_state dm phone
  let ust := r.1
  let ust1 : UserState :=
    { ust with
      current_state := state,
      message_count := ust.message_count + 1,
      conversation_data := dictUpdate ust.conversation_data data }
  let dm1 := { r.2 with user_states := dictInsert r.2.user_states phone ust1 }
  dm_store_set dm1 phone ust1

/-- Local `name = user_name if user_name else "there"` of `_handle_initial`
(Python truthiness: `None` and the empty string both fall back). -/
def display_name_or_there : Option String → String
  | some n => if n == "" then "there" else n
  | none => "there"

/-- `DialogueManager._handle_initial`. -/
def handle_initial (dm : DM) (phone : String) (user_name : Option String) :
    String × Bool × DM :=
  let cfg := dm.flow.initial
  let message := pyReplace cfg.message_template "{name}" (display_name_or_there user_name)
  let dm1 := update_user_state dm phone cfg.next_state []
  (message, false, dm1)

/-- `DialogueManager._handle_interest_response`.  The unclear branch guards on
`self.llm.is_enabled() and user_state['retry_count'] < max_retries`, but
`user_state` is an undefined name in that method; Python's short-circuit
evaluation reaches it exactly when `is_enabled()` is true, raising
`NameError` there, so the increment/persist/generate block after it is
unreachable. -/
def handle_interest_response (dm : DM) (phone message : String) :
    Except PyErr (String × Bool × DM) :=
  let cfg := dm.flow.interest
  if cfg.positive_keywords.any (fun k => strContains message k) then
    let dm1 := update_user_state dm phone cfg.on_positive_next_state []
    .ok (cfg.on_positive_message, false, dm1)
  else if cfg.negative_keywords.any (fun k => strContains message k) then
    let dm1 := update_user_state dm phone "END" []
    .ok (cfg.on_negative_message, true, dm1)
  else if dm.llm_enabled then
    .error (.nameError "user_state")
  else
    .ok (cfg.on_unclear_message, false, dm)

/-- `DialogueManager._handle_question`. -/
def handle_question (dm : DM) (phone : String) (cfg : QuestionCfg) :
    String × Bool × DM :=
  let dm1 := update_user_state dm phone cfg.next_state []
  (cfg.message, false, dm1)

/-- Local `employment = conversation_data.get('employment_type', '')`. -/
def eligEmployment (cd : List (String × Scalar)) : Scalar :=
  (dictGet cd "employment_type").getD (.s "")

/-- Local `income = conversation_data.get('monthly_income', 0)`. -/
def eligIncome (cd : List (String × Scalar)) : Scalar :=
  (dictGet cd "monthly_income").getD (.i 0)

/-- Local `residency = conversation_data.get('residency_status', '')`. -/
def eligResidency (cd : List (String × Scalar)) : Scalar :=
  (dictGet cd "residency_status").getD (.s "")

/-- Python `x in listOfStrings` for a scalar `x`. -/
def scalarInStrings (x : Scalar) (l : List String) : Bool :=
  l.any (fun v => Scalar.s v == x)

/-- Python `x >= m` between a stored scalar and an `int` threshold: comparing
a `str` with an `int` raises `TypeError`. -/
def scalarGeInt (x : Scalar) (m : Int) : Except PyErr Bool :=
  match x with
  | .i v => .ok (decide (m ≤ v))
  | .s _ => .error (.typeError "not supported between instances of str and int")

/-- The pure heart of `_handle_eligibility` (lines computing
`valid_employment`, `valid_income`, `valid_residency` and picking the branch):
given the rules, the scheduling link and the stored `conversation_data`, it
yields the reply, the ended flag and the outcome tag. -/
def evalEligibility (elig : EligCfg) (link : String)
    (cd : List (String × Scalar)) : Except PyErr (String × Bool × Option String) :=
  let valid_employment := scalarInStrings (eligEmployment cd) elig.employment_type
  match scalarGeInt (eligIncome cd) elig.monthly_income_minimum with
  | .error e => .error e
  | .ok valid_income =>
    let valid_residency := scalarInStrings (eligResidency cd) elig.residency_status
    if valid_employment && valid_income && valid_residency then
      .ok (pyReplace elig.on_qualified_template "{calendly_link}" link,
           true, some "qualified")
    else
      .ok (elig.on_not_qualified_message, true, some "disqualified")

/-- `DialogueManager._handle_eligibility`: evaluate the rules over the
sender's stored data, record the outcome on the cached record, then
transition to `END` (which persists the updated record). -/
def handle_eligibility (dm : DM) (phone : String) :
    Except PyErr (String × Bool × DM) :=
  let r := get_user_state dm phone
  let ust := r.1
  let dm1 := r.2
  match evalEligibility dm1.flow.elig dm1.flow.calendly_link ust.conversation_data with
  | .error e => .error e
  | .ok (message, ended, outcome) =>
    let ust1 := { ust with outcome := outcome }
    let dm2 := { dm1 with user_states := dictInsert dm1.user_states phone ust1 }
    let dm3 := update_user_state dm2 phone "END" []
    .ok (message, ended, dm3)

/-- `DialogueManager._handle_answer` (the three `AWAITING_ANSWER_*` shapes
plus the literal fall-through reply). -/
def handle_answer (dm : DM) (phone message state_id : String) :
    Except PyErr (String × Bool × DM) :=
  let dm := (get_user_state dm phone).2
  if state_id == "AWAITING_ANSWER_1" then
    let cfg := dm.flow.answer1
    if cfg.salaried_keywords.any (fun k => strContains message k) then
      let dm1 := update_user_state dm phone "QUESTION_2" [(cfg.store_as, Scalar.s "salaried")]
      .ok (cfg.on_valid_message, false, dm1)
    else if cfg.selfemployed_keywords.any (fun k => strContains message k) then
      let dm1 := update_user_state dm phone "QUESTION_2" [(cfg.store_as, Scalar.s "self-employed")]
      .ok (cfg.on_valid_message, false, dm1)
    else
      .ok (cfg.on_invalid_message, false, dm)
  else if state_id == "AWAITING_ANSWER_2" then
    let cfg := dm.flow.answer2
    match firstDigitRun message with
    | none => .ok (cfg.on_invalid_message, false, dm)
    | some run =>
      let income : Int := Int.ofNat (digitsToNat run)
      if income < cfg.minimum_income then
        let dm1 := update_user_state dm phone "END" []
        .ok (cfg.on_below_minimum_message, true, dm1)
      else
        let dm1 := update_user_state dm phone "QUESTION_3" [(cfg.store_as, Scalar.i income)]
        .ok (cfg.on_valid_message, false, dm1)
  else if state_id == "AWAITING_ANSWER_3" then
    let cfg := dm.flow.answer3
    if cfg.uae_national_keywords.any (fun k => strContains message k) then
      let dm1 := update_user_state dm phone "EVALUATE_ELIGIBILITY" [(cfg.store_as, Scalar.s "uae_national")]
      handle_eligibility dm1 phone
    else if cfg.expatriate_keywords.any (fun k => strContains message k) then
      let dm1 := update_user_state dm phone "EVALUATE_ELIGIBILITY" [(cfg.store_as, Scalar.s "expatriate")]
      handle_eligibility dm1 phone
    else
      .ok (cfg.on_invalid_message, false, dm)
  else
    .ok ("I didn't understand. Please try again.", false, dm)

/-- `DialogueManager._handle_error`. -/
def handle_error (dm : DM) (phone : String) : String × Bool × DM :=
  let message := dm.flow.technical_error_message
  let dm1 := update_user_state dm phone "END" []
  (message, true, dm1)

/-- `DialogueManager.process_message`: resolve the sender's state and route
the (lower-cased, stripped) message through the state handlers. -/
def process_message (dm : DM) (phone message : String)
    (user_name : Option String) : Except PyErr (String × Bool × DM) :=
  let r := get_user_state dm phone
  let ust := r.1
  let dm := r.2
  let current_state_id := ust.current_state
  if current_state_id == "INITIAL" then
    .ok (handle_initial dm phone user_name)
  else if current_state_id == "END" then
    .ok ("Thank you! Your conversation has ended. Feel free to start a new conversation anytime.",
         true, dm)
  else if !(dm.flow.state_ids.contains current_state_id) then
    .ok (handle_error dm phone)
  else
    let message_lower := pyStrip (pyLower message)
    if current_state_id == "AWAITING_INTEREST" then
      handle_interest_response dm phone message_lower
    else if startswith current_state_id "AWAITING_ANSWER" then
      handle_answer dm phone message_lower current_state_id
    else if current_state_id == "EVALUATE_ELIGIBILITY" then
      handle_eligibility dm phone
    else if startswith current_state_id "QUESTION" then
      .ok (handle_question dm phone (question_cfg dm.flow current_state_id))
    else
      .ok (handle_error dm phone)

/-- Modelled from the spec: the mortgage Flow Document
(`dialogue/mortgage.flow.json`) is data of this repository that is not under
the embedded sources; its configuration follows the spec's stated values
(`max_retries = 2`, qualification rules `employment_type ∈
\x7bsalaried, self-employed\x7d`, `monthly_income_minimum = 5000`,
`residency_status ∈ \x7buae_national, expatriate\x7d`, keyword containment
with `yes`/`no`, a `\x7bname\x7d` greeting placeholder and a
`\x7bcalendly_link\x7d` placeholder in the qualified message). -/
def mortgageFlow : Flow :=
  { state_ids := ["INITIAL", "AWAITING_INTEREST", "QUESTION_1", "AWAITING_ANSWER_1",
                  "QUESTION_2", "AWAITING_ANSWER_2", "QUESTION_3", "AWAITING_ANSWER_3",
                  "EVALUATE_ELIGIBILITY"],
    initial := { message_template := "Hi {name}! Interested in mortgage options? Reply Yes or No.",
                 next_state := "AWAITING_INTEREST" },
    interest := { positive_keywords := ["yes", "yeah", "sure", "interested"],
                  negative_keywords := ["no", "nope", "not interested"],
                  on_positive_message := "Great! Let me ask you a few questions.",
                  on_positive_next_state := "QUESTION_1",
                  on_negative_message := "No problem! Have a great day!",
                  on_unclear_message := "Please reply with Yes or No." },
    answer1 := { salaried_keywords := ["salaried", "salary", "employee"],
                 selfemployed_keywords := ["self-employed", "self employed", "business"],
                 store_as := "employment_type",
                 on_valid_message := "Got it!",
                 on_invalid_message := "Please specify Salaried or Self-employed." },
    answer2 := { minimum_income := 5000,
                 store_as := "monthly_income",
                 on_invalid_message := "Please provide a numeric value.",
                 on_below_minimum_message := "Thank you for your interest.",
                 on_valid_message := "Thank you!" },
    answer3 := { uae_national_keywords := ["uae national", "emirati"],
                 expatriate_keywords := ["expat", "expatriate"],
                 store_as := "residency_status",
                 on_invalid_message := "Please specify UAE National or Expatriate." },
    elig := { employment_type := ["salaried", "self-employed"],
              monthly_income_minimum := 5000,
              residency_status := ["uae_national", "expatriate"],
              on_qualified_template := "Congratulations! You qualify. Book a call: {calendly_link}",
              on_not_qualified_message := "Thank you for your time." },
    questions := [("QUESTION_1", { message := "Are you salaried or self-employed?", next_state := "AWAITING_ANSWER_1" }),
                  ("QUESTION_2", { message := "What is your monthly income in AED?", next_state := "AWAITING_ANSWER_2" }),
                  ("QUESTION_3", { message := "Are you a UAE National or an Expatriate?", next_state := "AWAITING_ANSWER_3" })],
    calendly_link := "https://calendly.com/example/call",
    max_retries := 2,
    technical_error_message := "I'm experiencing technical difficulties.",
    product_hook := "mortgage" }

/-- A manager over the mortgage flow holding one sender `phone` whose record
is `st`, both cached and persisted, with an empty write log. -/
def mkDM (enabled : Bool) (phone : String) (st : UserState) : DM :=
  { flow := mortgageFlow, llm_enabled := enabled,
    user_states := [(phone, st)], store := [(phone, st)], writeLog := [] }

/-- A sender sitting at the Yes/No gate with `retry_count = rc`. -/
def interestState (rc : Nat) : UserState :=
  { current_state := "AWAITING_INTEREST", conversation_data := [],
    message_count := 1, retry_count := rc, outcome := none }

/-- Reply projection of a `process_message` result. -/
def pmReply : Except PyErr (String × Bool × DM) → Option String
  | .ok (r, _, _) => some r
  | .error _ => none

/-- Ended-flag projection of a `process_message` result. -/
def pmEnded : Except PyErr (String × Bool × DM) → Option Bool
  | .ok (_, e, _) => some e
  | .error _ => none

/-- Resulting manager state of a `process_message` result. -/
def pmAfter : Except PyErr (String × Bool × DM) → Option DM
  | .ok (_, _, dm) => some dm
  | .error _ => none

/-- The sender's stored outcome after a successful `process_message` call. -/
def pmOutcome (phone : String) : Except PyErr (String × Bool × DM) → Option (Option String)
  | .ok (_, _, dm) => some ((get_user_state dm phone).1.outcome)
  | .error _ => none

/-! ### Basic lemmas about the store and state resolution -/

theorem dictGet_insert_self {α : Type} (d : List (String × α)) (k : String) (v : α) :
    dictGet (dictInsert d k v) k = some v := by
  induction d with
  | nil => simp [dictInsert, dictGet]
  | cons hd tl ih =>
    obtain ⟨k', v'⟩ := hd
    by_cases h : k' == k
    · simp [dictInsert, h, dictGet]
    · simp [dictInsert, h, dictGet, ih]

theorem get_user_state_store (dm : DM) (phone : String) :
    ((get_user_state dm phone).2).store = dm.store := by
  unfold get_user_state
  cases hc : dictGet dm.user_states phone with
  | some st => rfl
  | none =>
    cases hs : ConversationStore.get dm.store phone with
    | some st => rfl
    | none => rfl

theorem get_user_state_writeLog (dm : DM) (phone : String) :
    ((get_user_state dm phone).2).writeLog = dm.writeLog := by
  unfold get_user_state
  cases hc : dictGet dm.user_states phone with
  | some st => rfl
  | none =>
    cases hs : ConversationStore.get dm.store phone with
    | some st => rfl
    | none => rfl

theorem get_user_state_flow (dm : DM) (phone : String) :
    ((get_user_state dm phone).2).flow = dm.flow := by
  unfold get_user_state
  cases hc : dictGet dm.user_states phone with
  | some st => rfl
  | none =>
    cases hs : ConversationStore.get dm.store phone with
    | some st => rfl
    | none => rfl

theorem get_user_state_llm (dm : DM) (phone : String) :
    ((get_user_state dm phone).2).llm_enabled = dm.llm_enabled := by
  unfold get_user_state
  cases hc : dictGet dm.user_states phone with
  | some st => rfl
  | none =>
    cases hs : ConversationStore.get dm.store phone with
    | some st => rfl
    | none => rfl

theorem get_user_state_cached (dm : DM) (phone : String) :
    dictGet ((get_user_state dm phone).2).user_states phone
      = some ((get_user_state dm phone).1) := by
  unfold get_user_state
  cases hc : dictGet dm.user_states phone with
  | some st => simpa using hc
  | none =>
    cases hs : ConversationStore.get dm.store phone with
    | some st => simp [dictGet_insert_self]
    | none => simp [dictGet_insert_self]

theorem get_user_state_idem (dm : DM) (phone : String) :
    get_user_state ((get_user_state dm phone).2) phone
      = ((get_user_state dm phone).1, (get_user_state dm phone).2) := by
  have h := get_user_state_cached dm phone
  conv_lhs => rw [get_user_state]
  rw [h]

/-! ### Claim theorems -/

/-- C1: the specification says `process_message` always returns a
`(reply, ended)` pair without raising, in particular on the unclear branch of
the Yes/No gate with the clarification generator enabled.  The code instead
raises `NameError` there: the guard reads the undefined local `user_state`,
which Python's short-circuit evaluation reaches exactly when
`is_enabled()` is true.  This theorem evaluates the code at the failing
input (sender at `AWAITING_INTEREST`, message `"maybe"`, generator enabled)
and shows the raised exception, while the same input with the generator
disabled returns the static fallback without raising. -/
theorem c1_unclear_with_llm_raises :
    process_message (mkDM true "971501111111" (interestState 0)) "971501111111" "maybe" none
      = .error (.nameError "user_state")
    ∧ process_message (mkDM false "971501111111" (interestState 0)) "971501111111" "maybe" none
      = .ok ("Please reply with Yes or No.", false, mkDM false "971501111111" (interestState 0)) :=
  ⟨rfl, rfl⟩

/-- C2: the specification's retry bound says that with `max_retries = 2` and
the generator enabled, the first two unclear attempts increment and persist
`retry_count`; the code instead raises `NameError` on every unclear attempt
while the generator is enabled (at `retry_count = 0` and `1` alike), so the
counter is never incremented or persisted.  The half of the claim about the
disabled generator holds: the gate returns its static fallback, leaves the
stored state (including `retry_count`) unchanged, and `ended = false`. -/
theorem c2_retry_policy_crashes :
    (mkDM true "971502222222" (interestState 0)).flow.max_retries = 2
    ∧ process_message (mkDM true "971502222222" (interestState 0)) "971502222222" "hmm" none
      = .error (.nameError "user_state")
    ∧ process_message (mkDM true "971502222222" (interestState 1)) "971502222222" "hmm" none
      = .error (.nameError "user_state")
    ∧ process_message (mkDM false "971502222222" (interestState 0)) "971502222222" "hmm" none
      = .ok ("Please reply with Yes or No.", false, mkDM false "971502222222" (interestState 0)) :=
  ⟨rfl, rfl, rfl, rfl⟩

/-- C3: once a sender's stored current state is the terminal identifier
`END`, every `process_message` call returns the fixed closing message with
`ended = true`, raises nothing, performs no store write, and the resolved
conversation record (state, data, counters, outcome) is unchanged for every
subsequent resolution. -/
theorem c3_termination_idempotent (dm : DM) (phone message : String)
    (user_name : Option String)
    (h : (get_user_state dm phone).1.current_state = "END") :
    process_message dm phone message user_name
      = .ok ("Thank you! Your conversation has ended. Feel free to start a new conversation anytime.",
             true, (get_user_state dm phone).2)
    ∧ ((get_user_state dm phone).2).store = dm.store
    ∧ ((get_user_state dm phone).2).writeLog = dm.writeLog
    ∧ get_user_state ((get_user_state dm phone).2) phone
        = ((get_user_state dm phone).1, (get_user_state dm phone).2) := by
  refine ⟨?_, get_user_state_store dm phone, get_user_state_writeLog dm phone,
    get_user_state_idem dm phone⟩
  simp only [process_message, h]
  norm_num
  exact fun h' => absurd h' (by decide)

/-- A terminated sender record used to witness the termination claim. -/
def endRecord : UserState :=
  { current_state := "END", conversation_data := [("employment_type", Scalar.s "salaried")],
    message_count := 7, retry_count := 0, outcome := some "qualified" }

theorem c3_termination_idempotent_witness :
    process_message (mkDM false "971503333333" endRecord) "971503333333" "hello again" none
      = .ok ("Thank you! Your conversation has ended. Feel free to start a new conversation anytime.",
             true, mkDM false "971503333333" endRecord)
    ∧ (mkDM false "971503333333" endRecord).store
        = [("971503333333", endRecord)] :=
  ⟨(c3_termination_idempotent (mkDM false "971503333333" endRecord)
      "971503333333" "hello again" none rfl).1, rfl⟩

/-- C6: for a sender with no cached and no persisted state, resolution
initializes the record to `INITIAL` with empty answer map, zero counters and
null outcome, and the first `process_message` call returns the greeting
template with the `\x7bname\x7d` placeholder replaced by the provided
display name (the literal `"there"` when none is given), with
`ended = false`. -/
theorem c6_first_contact (dm : DM) (phone message n : String)
    (user_name : Option String)
    (hc : dictGet dm.user_states phone = none)
    (hs : ConversationStore.get dm.store phone = none)
    (hn : (n == "") = false) :
    (get_user_state dm phone).1 = initial_user_state
    ∧ display_name_or_there (some n) = n
    ∧ display_name_or_there none = "there"
    ∧ ∃ dm', process_message dm phone message user_name
        = .ok (pyReplace dm.flow.initial.message_template "{name}"
                 (display_name_or_there user_name), false, dm') := by
  have h1 : (get_user_state dm phone).1 = initial_user_state := by
    unfold get_user_state
    rw [hc, hs]
  have h2 : (get_user_state dm phone).1.current_state = "INITIAL" := by rw [h1]; rfl
  refine ⟨h1, ?_, rfl, ?_⟩
  · simp [display_name_or_there, hn]
  · refine ⟨update_user_state (get_user_state dm phone).2 phone dm.flow.initial.next_state [], ?_⟩
    simp only [process_message, h2]
    norm_num
    simp only [handle_initial, get_user_state_flow]

/-- A manager with an entirely fresh cache and store over the mortgage flow. -/
def emptyDM : DM :=
  { flow := mortgageFlow, llm_enabled := false,
    user_states := [], store := [], writeLog := [] }

theorem c6_first_contact_witness :
    (get_user_state emptyDM "971504444444").1 = initial_user_state
    ∧ display_name_or_there (some "Ali") = "Ali"
    ∧ display_name_or_there none = "there"
    ∧ pmReply (process_message emptyDM "971504444444" "hi" (some "Ali"))
        = some "Hi Ali! Interested in mortgage options? Reply Yes or No." := by
  have h := c6_first_contact emptyDM "971504444444" "hi" "Ali" (some "Ali") rfl rfl rfl
  obtain ⟨h1, h2, h3, dm', h4⟩ := h
  exact ⟨h1, h2, h3, by rw [h4]; rfl⟩

theorem dictUpdate_single {α : Type} (d : List (String × α)) (k : String) (v : α) :
    dictUpdate d [(k, v)] = dictInsert d k v := rfl

theorem update_user_state_resolve (dm : DM) (phone s : String)
    (data : List (String × Scalar)) :
    (get_user_state (update_user_state dm phone s data) phone).1
      = ⟨s, dictUpdate (get_user_state dm phone).1.conversation_data data,
         (get_user_state dm phone).1.message_count + 1,
         (get_user_state dm phone).1.retry_count,
         (get_user_state dm phone).1.outcome⟩ := by
  have h : dictGet (update_user_state dm phone s data).user_states phone
      = some ⟨s, dictUpdate (get_user_state dm phone).1.conversation_data data,
              (get_user_state dm phone).1.message_count + 1,
              (get_user_state dm phone).1.retry_count,
              (get_user_state dm phone).1.outcome⟩ :=
    dictGet_insert_self _ _ _
  conv_lhs => rw [get_user_state]
  rw [h]

theorem update_user_state_store (dm : DM) (phone s : String)
    (data : List (String × Scalar)) :
    (update_user_state dm phone s data).store
      = ConversationStore.set dm.store phone
          ⟨s, dictUpdate (get_user_state dm phone).1.conversation_data data,
           (get_user_state dm phone).1.message_count + 1,
           (get_user_state dm phone).1.retry_count,
           (get_user_state dm phone).1.outcome⟩ := by
  show ConversationStore.set ((get_user_state dm phone).2).store phone _ = _
  rw [get_user_state_store]

/-- Routing fact: at a stored state `AWAITING_ANSWER_2` that is a key of the
flow's `states`, `process_message` runs the income branch of
`_handle_answer` on the lower-cased stripped message. -/
theorem process_answer2 (dm : DM) (phone message : String) (user_name : Option String)
    (hst : (get_user_state dm phone).1.current_state = "AWAITING_ANSWER_2")
    (hin : dm.flow.state_ids.contains "AWAITING_ANSWER_2" = true) :
    process_message dm phone message user_name
      = (match firstDigitRun (pyStrip (pyLower message)) with
         | none => .ok (dm.flow.answer2.on_invalid_message, false, (get_user_state dm phone).2)
         | some run =>
           let income : Int := Int.ofNat (digitsToNat run)
           if income < dm.flow.answer2.minimum_income then
             .ok (dm.flow.answer2.on_below_minimum_message, true,
                  update_user_state (get_user_state dm phone).2 phone "END" [])
           else
             .ok (dm.flow.answer2.on_valid_message, false,
                  update_user_state (get_user_state dm phone).2 phone "QUESTION_3"
                    [(dm.flow.answer2.store_as, Scalar.i income)])) := by
  have e1 : (("AWAITING_ANSWER_2" : String) == "INITIAL") = false := by decide
  have e2 : (("AWAITING_ANSWER_2" : String) == "END") = false := by decide
  have e3 : (("AWAITING_ANSWER_2" : String) == "AWAITING_INTEREST") = false := by decide
  have e4 : startswith "AWAITING_ANSWER_2" "AWAITING_ANSWER" = true := by decide
  have e5 : (("AWAITING_ANSWER_2" : String) == "AWAITING_ANSWER_1") = false := by decide
  have e6 : (("AWAITING_ANSWER_2" : String) == "AWAITING_ANSWER_2") = true := by decide
  simp only [process_message, hst, get_user_state_flow, hin, e1, e2, e3, e4,
    Bool.not_true, Bool.false_eq_true, if_false, if_true, cond_true, cond_false]
  norm_num
  simp only [handle_answer, get_user_state_idem, e5, e6, get_user_state_flow]
  norm_num

/-- C7: at the income answer state, the engine takes the first maximal digit
run of the lower-cased trimmed message as the income: whenever that run is
`"7500"` (and the configured minimum does not exceed it) the stored income is
the integer `7500` and the flow advances to `QUESTION_3`; a message with no
digits yields the invalid-input re-prompt with no state change. -/
theorem c7_numeric_extraction (dm : DM) (phone message : String) (user_name : Option String)
    (hst : (get_user_state dm phone).1.current_state = "AWAITING_ANSWER_2")
    (hin : dm.flow.state_ids.contains "AWAITING_ANSWER_2" = true)
    (hmin : dm.flow.answer2.minimum_income ≤ 7500) :
    (firstDigitRun (pyStrip (pyLower message)) = some "7500" →
      ∃ dm', process_message dm phone message user_name
          = .ok (dm.flow.answer2.on_valid_message, false, dm')
        ∧ (get_user_state dm' phone).1.current_state = "QUESTION_3"
        ∧ dictGet (get_user_state dm' phone).1.conversation_data dm.flow.answer2.store_as
            = some (Scalar.i 7500))
    ∧ (firstDigitRun (pyStrip (pyLower message)) = none →
      process_message dm phone message user_name
        = .ok (dm.flow.answer2.on_invalid_message, false, (get_user_state dm phone).2)
      ∧ (get_user_state ((get_user_state dm phone).2) phone).1.current_state
          = "AWAITING_ANSWER_2") := by
  have hp := process_answer2 dm phone message user_name hst hin
  constructor
  · intro h7
    rw [h7] at hp
    have hd : Int.ofNat (digitsToNat "7500") = 7500 := by decide
    simp only [hd] at hp
    rw [if_neg (not_lt.mpr hmin)] at hp
    refine ⟨_, hp, by simp [update_user_state_resolve], ?_⟩
    simp [update_user_state_resolve, dictUpdate_single, dictGet_insert_self]
  · intro h7
    rw [h7] at hp
    exact ⟨hp, by simp [get_user_state_idem, hst]⟩

/-- A sender waiting at the income question, used by the income witnesses. -/
def a2Record : UserState :=
  { current_state := "AWAITING_ANSWER_2",
    conversation_data := [("employment_type", Scalar.s "salaried")],
    message_count := 3, retry_count := 0, outcome := none }

/-- The engine holding that sender, clarification generator disabled. -/
def dmA2 : DM := mkDM false "971505555555" a2Record

theorem c7_numeric_extraction_witness :
    pmReply (process_message dmA2 "971505555555" "About 7500 AED" none) = some "Thank you!"
    ∧ pmEnded (process_message dmA2 "971505555555" "About 7500 AED" none) = some false
    ∧ pmReply (process_message dmA2 "971505555555" "no digits here" none)
        = some "Please provide a numeric value." := by
  have hA := (c7_numeric_extraction dmA2 "971505555555" "About 7500 AED" none
    rfl rfl (by decide)).1 (by decide)
  have hB := (c7_numeric_extraction dmA2 "971505555555" "no digits here" none
    rfl rfl (by decide)).2 (by decide)
  obtain ⟨dm', hq, _, _⟩ := hA
  exact ⟨by rw [hq]; rfl, by rw [hq]; rfl, by rw [hB.1]; rfl⟩

/-- C9: when the first digit run at the income answer state is strictly below
the configured minimum, the call transitions the sender to `END` and returns
`ended = true`, yet the stored outcome stays `none` (unlike the
eligibility-evaluator path, which records `disqualified`): the persisted
record is exactly the resolved one, outcome untouched. -/
theorem c9_below_minimum_outcome_none (dm : DM) (phone message run : String)
    (user_name : Option String)
    (hst : (get_user_state dm phone).1.current_state = "AWAITING_ANSWER_2")
    (hin : dm.flow.state_ids.contains "AWAITING_ANSWER_2" = true)
    (hrun : firstDigitRun (pyStrip (pyLower message)) = some run)
    (hlt : Int.ofNat (digitsToNat run) < dm.flow.answer2.minimum_income)
    (hout : (get_user_state dm phone).1.outcome = none) :
    ∃ dm', process_message dm phone message user_name
        = .ok (dm.flow.answer2.on_below_minimum_message, true, dm')
      ∧ (get_user_state dm' phone).1.current_state = "END"
      ∧ (get_user_state dm' phone).1.outcome = none
      ∧ dictGet dm'.store phone = some (get_user_state dm' phone).1 := by
  have hp := process_answer2 dm phone message user_name hst hin
  rw [hrun] at hp
  simp only [if_pos hlt] at hp
  refine ⟨_, hp, by simp [update_user_state_resolve], ?_, ?_⟩
  · simp [update_user_state_resolve, get_user_state_idem, hout]
  · simp [update_user_state_store, update_user_state_resolve, ConversationStore.set,
      dictGet_insert_self]

theorem c9_below_minimum_outcome_none_witness :
    pmReply (process_message dmA2 "971505555555" "I make 3000 dirhams" none)
      = some "Thank you for your interest."
    ∧ pmEnded (process_message dmA2 "971505555555" "I make 3000 dirhams" none) = some true
    ∧ pmOutcome "971505555555" (process_message dmA2 "971505555555" "I make 3000 dirhams" none)
      = some none := by
  obtain ⟨dm', hq, hcs, ho, hper⟩ := c9_below_minimum_outcome_none dmA2 "971505555555"
    "I make 3000 dirhams" "3000" none rfl rfl (by decide) (by decide) rfl
  exact ⟨by rw [hq]; rfl, by rw [hq]; rfl, by rw [hq]; simp [pmOutcome, ho]⟩

/-- C10: an income exactly equal to the configured minimum is not treated as
below-minimum (the early exit fires only on strict `<`), the answer is stored
and the flow advances; and the same boundary value satisfies the
eligibility numeric rule (`income >= monthly_income_minimum`) whenever the
two configured minimums agree. -/
theorem c10_boundary_income (dm : DM) (phone message run : String)
    (user_name : Option String)
    (hst : (get_user_state dm phone).1.current_state = "AWAITING_ANSWER_2")
    (hin : dm.flow.state_ids.contains "AWAITING_ANSWER_2" = true)
    (hrun : firstDigitRun (pyStrip (pyLower message)) = some run)
    (heq : Int.ofNat (digitsToNat run) = dm.flow.answer2.minimum_income) :
    (∃ dm', process_message dm phone message user_name
        = .ok (dm.flow.answer2.on_valid_message, false, dm')
      ∧ (get_user_state dm' phone).1.current_state = "QUESTION_3"
      ∧ dictGet (get_user_state dm' phone).1.conversation_data dm.flow.answer2.store_as
          = some (Scalar.i (Int.ofNat (digitsToNat run))))
    ∧ (∀ (elig : EligCfg) (cd : List (String × Scalar)),
        dictGet cd "monthly_income" = some (Scalar.i dm.flow.answer2.minimum_income) →
        elig.monthly_income_minimum = dm.flow.answer2.minimum_income →
        scalarGeInt (eligIncome cd) elig.monthly_income_minimum = .ok true) := by
  have hp := process_answer2 dm phone message user_name hst hin
  simp only [hrun] at hp
  rw [if_neg (by rw [heq]; exact lt_irrefl _)] at hp
  constructor
  · refine ⟨_, hp, by simp [update_user_state_resolve], ?_⟩
    simp [update_user_state_resolve, dictUpdate_single, dictGet_insert_self]
  · intro elig cd hcd hrule
    simp [scalarGeInt, eligIncome, hcd, hrule]

theorem c10_boundary_income_witness :
    pmReply (process_message dmA2 "971505555555" "exactly 5000" none) = some "Thank you!"
    ∧ pmEnded (process_message dmA2 "971505555555" "exactly 5000" none) = some false
    ∧ scalarGeInt (eligIncome [("monthly_income", Scalar.i 5000)])
        mortgageFlow.elig.monthly_income_minimum = .ok true := by
  obtain ⟨h1, h2⟩ := c10_boundary_income dmA2 "971505555555" "exactly 5000" "5000" none
    rfl rfl (by decide) (by decide)
  obtain ⟨dm', hq, _, _⟩ := h1
  exact ⟨by rw [hq]; rfl, by rw [hq]; rfl, h2 mortgageFlow.elig _ rfl rfl⟩

/-- The stored answers of the spec's qualified example. -/
def cdQualified : List (String × Scalar) :=
  [("employment_type", .s "salaried"), ("monthly_income", .i 8000),
   ("residency_status", .s "expatriate")]

/-- The same answers with `monthly_income = 3000`. -/
def cdLowIncome : List (String × Scalar) :=
  [("employment_type", .s "salaried"), ("monthly_income", .i 3000),
   ("residency_status", .s "expatriate")]

/-- A sender resolved at the eligibility evaluator with stored data `cd`. -/
def eligRecord (cd : List (String × Scalar)) : UserState :=
  { current_state := "EVALUATE_ELIGIBILITY", conversation_data := cd,
    message_count := 5, retry_count := 0, outcome := none }

/-- Engine at the evaluator over the qualified example data. -/
def dmEligQ : DM := mkDM false "971506666666" (eligRecord cdQualified)

/-- Engine at the evaluator over the low-income example data. -/
def dmEligD : DM := mkDM false "971506666666" (eligRecord cdLowIncome)

/-- C4: eligibility evaluation is a deterministic function of the stored
`conversation_data` and the configured rules; a missing field fails its
predicate and the conjunction, yielding `disqualified` (provided the stored
income is not a string, which would raise `TypeError` in the comparison);
and on the spec's concrete examples the engine returns `qualified` with the
scheduling link substituted into the reply for income `8000`, and
`disqualified` with `ended = true` for income `3000`. -/
theorem c4_eligibility_deterministic (cd₁ cd₂ cd : List (String × Scalar))
    (h : cd₁ = cd₂)
    (hmiss : dictGet cd "employment_type" = none)
    (hnum : ∀ s, dictGet cd "monthly_income" ≠ some (Scalar.s s)) :
    (evalEligibility mortgageFlow.elig mortgageFlow.calendly_link cd₁
      = evalEligibility mortgageFlow.elig mortgageFlow.calendly_link cd₂)
    ∧ evalEligibility mortgageFlow.elig mortgageFlow.calendly_link cd
        = .ok ("Thank you for your time.", true, some "disqualified")
    ∧ pmReply (process_message dmEligQ "971506666666" "go" none)
        = some "Congratulations! You qualify. Book a call: https://calendly.com/example/call"
    ∧ pmEnded (process_message dmEligQ "971506666666" "go" none) = some true
    ∧ pmOutcome "971506666666" (process_message dmEligQ "971506666666" "go" none)
        = some (some "qualified")
    ∧ pmReply (process_message dmEligD "971506666666" "go" none) = some "Thank you for your time."
    ∧ pmEnded (process_message dmEligD "971506666666" "go" none) = some true
    ∧ pmOutcome "971506666666" (process_message dmEligD "971506666666" "go" none)
        = some (some "disqualified") := by
  refine ⟨by rw [h], ?_, rfl, rfl, rfl, rfl, rfl, rfl⟩
  have he : eligEmployment cd = .s "" := by simp [eligEmployment, hmiss]
  have hemp : scalarInStrings (Scalar.s "") mortgageFlow.elig.employment_type = false := by decide
  cases hi : dictGet cd "monthly_income" with
  | none =>
    simp only [evalEligibility, eligIncome, hi, he, hemp, scalarGeInt]
    rfl
  | some v =>
    cases v with
    | s str => exact absurd hi (hnum str)
    | i n =>
      simp only [evalEligibility, eligIncome, hi, he, hemp, scalarGeInt]
      rfl

theorem c4_eligibility_deterministic_witness :
    evalEligibility mortgageFlow.elig mortgageFlow.calendly_link cdQualified
      = evalEligibility mortgageFlow.elig mortgageFlow.calendly_link cdQualified
    ∧ evalEligibility mortgageFlow.elig mortgageFlow.calendly_link []
        = .ok ("Thank you for your time.", true, some "disqualified")
    ∧ pmOutcome "971506666666" (process_message dmEligQ "971506666666" "go" none)
        = some (some "qualified")
    ∧ pmOutcome "971506666666" (process_message dmEligD "971506666666" "go" none)
        = some (some "disqualified") := by
  have h := c4_eligibility_deterministic cdQualified cdQualified [] rfl rfl
    (fun s hx => Option.noConfusion hx)
  exact ⟨h.1, h.2.1, h.2.2.2.2.1, h.2.2.2.2.2.2.2⟩

/-- Routing fact: at a stored `AWAITING_ANSWER*` state that is a key of the
flow's `states`, `process_message` runs `_handle_answer` on the lower-cased
stripped message. -/
theorem process_route_answer (dm : DM) (phone message : String) (user_name : Option String)
    (sid : String)
    (hst : (get_user_state dm phone).1.current_state = sid)
    (hin : dm.flow.state_ids.contains sid = true)
    (h1 : (sid == "INITIAL") = false) (h2 : (sid == "END") = false)
    (h3 : (sid == "AWAITING_INTEREST") = false)
    (h4 : startswith sid "AWAITING_ANSWER" = true) :
    process_message dm phone message user_name
      = handle_answer (get_user_state dm phone).2 phone (pyStrip (pyLower message)) sid := by
  simp only [process_message, hst, get_user_state_flow, hin, h1, h2, h3, h4,
    Bool.not_true, Bool.false_eq_true, if_false, if_true]

/-- Routing fact: at a stored `AWAITING_INTEREST` state that is a key of the
flow's `states`, `process_message` runs `_handle_interest_response`. -/
theorem process_route_interest (dm : DM) (phone message : String) (user_name : Option String)
    (hst : (get_user_state dm phone).1.current_state = "AWAITING_INTEREST")
    (hin : dm.flow.state_ids.contains "AWAITING_INTEREST" = true) :
    process_message dm phone message user_name
      = handle_interest_response (get_user_state dm phone).2 phone (pyStrip (pyLower message)) := by
  have e1 : (("AWAITING_INTEREST" : String) == "INITIAL") = false := by decide
  have e2 : (("AWAITING_INTEREST" : String) == "END") = false := by decide
  have e3 : (("AWAITING_INTEREST" : String) == "AWAITING_INTEREST") = true := by decide
  simp only [process_message, hst, get_user_state_flow, hin, e1, e2, e3,
    Bool.not_true, Bool.false_eq_true, if_false, if_true]

/-- A sender waiting at the employment question with two messages counted. -/
def a1Record : UserState :=
  { current_state := "AWAITING_ANSWER_1", conversation_data := [],
    message_count := 2, retry_count := 0, outcome := none }

/-- The engine holding that sender, clarification generator disabled. -/
def dmA1 : DM := mkDM false "971507777777" a1Record

/-- C5 counterexample: a call that only re-prompts (invalid employment
answer `"banana"`) returns the invalid-input message and the engine state
unchanged — in particular its write log is still empty, so the call
performed no `ConversationStore.set` at all: contrary to the claim, the
monotonic counters are neither incremented nor persisted on re-prompt-only
calls (the stored record keeps `message_count = 2`). -/
theorem c5_reprompt_counterexample :
    process_message dmA1 "971507777777" "banana" none
      = .ok ("Please specify Salaried or Self-employed.", false, dmA1)
    ∧ dmA1.writeLog = []
    ∧ dictGet dmA1.store "971507777777" = some a1Record
    ∧ a1Record.message_count = 2 := ⟨rfl, rfl, rfl, rfl⟩

/-- C5 (amended): on every call that only re-prompts — an invalid answer at
any of the three answer states, a digit-free income message, or an unclear
Yes/No reply with the clarification generator disabled — the engine performs
no Conversation Store write at all: the store and the write log are
unchanged, the resolved record (counters included) is unchanged, and in
particular the stored current-state identifier is not changed. -/
theorem c5_reprompt_no_write (dm : DM) (phone message : String) (user_name : Option String)
    (hcase :
      ((get_user_state dm phone).1.current_state = "AWAITING_ANSWER_1"
        ∧ dm.flow.state_ids.contains "AWAITING_ANSWER_1" = true
        ∧ dm.flow.answer1.salaried_keywords.any
            (fun k => strContains (pyStrip (pyLower message)) k) = false
        ∧ dm.flow.answer1.selfemployed_keywords.any
            (fun k => strContains (pyStrip (pyLower message)) k) = false)
      ∨ ((get_user_state dm phone).1.current_state = "AWAITING_ANSWER_2"
        ∧ dm.flow.state_ids.contains "AWAITING_ANSWER_2" = true
        ∧ firstDigitRun (pyStrip (pyLower message)) = none)
      ∨ ((get_user_state dm phone).1.current_state = "AWAITING_ANSWER_3"
        ∧ dm.flow.state_ids.contains "AWAITING_ANSWER_3" = true
        ∧ dm.flow.answer3.uae_national_keywords.any
            (fun k => strContains (pyStrip (pyLower message)) k) = false
        ∧ dm.flow.answer3.expatriate_keywords.any
            (fun k => strContains (pyStrip (pyLower message)) k) = false)
      ∨ ((get_user_state dm phone).1.current_state = "AWAITING_INTEREST"
        ∧ dm.flow.state_ids.contains "AWAITING_INTEREST" = true
        ∧ dm.llm_enabled = false
        ∧ dm.flow.interest.positive_keywords.any
            (fun k => strContains (pyStrip (pyLower message)) k) = false
        ∧ dm.flow.interest.negative_keywords.any
            (fun k => strContains (pyStrip (pyLower message)) k) = false)) :
    ∃ reply, process_message dm phone message user_name
        = .ok (reply, false, (get_user_state dm phone).2)
      ∧ ((get_user_state dm phone).2).store = dm.store
      ∧ ((get_user_state dm phone).2).writeLog = dm.writeLog
      ∧ (get_user_state ((get_user_state dm phone).2) phone).1
          = (get_user_state dm phone).1 := by
  have hframe : ((get_user_state dm phone).2).store = dm.store
      ∧ ((get_user_state dm phone).2).writeLog = dm.writeLog
      ∧ (get_user_state ((get_user_state dm phone).2) phone).1
          = (get_user_state dm phone).1 :=
    ⟨get_user_state_store dm phone, get_user_state_writeLog dm phone,
     by rw [get_user_state_idem]⟩
  rcases hcase with ⟨hst, hin, hk1, hk2⟩ | ⟨hst, hin, hk⟩ | ⟨hst, hin, hk1, hk2⟩ |
    ⟨hst, hin, hllm, hk1, hk2⟩
  · have hp := process_route_answer dm phone message user_name "AWAITING_ANSWER_1"
      hst hin (by decide) (by decide) (by decide) (by decide)
    refine ⟨dm.flow.answer1.on_invalid_message, ?_, hframe⟩
    rw [hp]
    have e1 : (("AWAITING_ANSWER_1" : String) == "AWAITING_ANSWER_1") = true := by decide
    simp only [handle_answer, get_user_state_idem, get_user_state_flow, e1, hk1, hk2,
      if_true, if_false, Bool.false_eq_true]
  · have hp := process_answer2 dm phone message user_name hst hin
    rw [hk] at hp
    exact ⟨dm.flow.answer2.on_invalid_message, hp, hframe⟩
  · have hp := process_route_answer dm phone message user_name "AWAITING_ANSWER_3"
      hst hin (by decide) (by decide) (by decide) (by decide)
    refine ⟨dm.flow.answer3.on_invalid_message, ?_, hframe⟩
    rw [hp]
    have e1 : (("AWAITING_ANSWER_3" : String) == "AWAITING_ANSWER_1") = false := by decide
    have e2 : (("AWAITING_ANSWER_3" : String) == "AWAITING_ANSWER_2") = false := by decide
    have e3 : (("AWAITING_ANSWER_3" : String) == "AWAITING_ANSWER_3") = true := by decide
    simp only [handle_answer, get_user_state_idem, get_user_state_flow, e1, e2, e3, hk1, hk2,
      if_true, if_false, Bool.false_eq_true]
  · have hp := process_route_interest dm phone message user_name hst hin
    refine ⟨dm.flow.interest.on_unclear_message, ?_, hframe⟩
    rw [hp]
    simp only [handle_interest_response, get_user_state_idem, get_user_state_flow,
      get_user_state_llm, hk1, hk2, hllm, if_true, if_false, Bool.false_eq_true]

theorem c5_reprompt_no_write_witness :
    pmAfter (process_message dmA1 "971507777777" "kumquat" none) = some dmA1
    ∧ pmEnded (process_message dmA1 "971507777777" "kumquat" none) = some false
    ∧ dmA1.writeLog = [] := by
  obtain ⟨reply, hq, _, _, _⟩ := c5_reprompt_no_write dmA1 "971507777777" "kumquat" none
    (Or.inl ⟨rfl, rfl, by decide, by decide⟩)
  exact ⟨by rw [hq]; rfl, by rw [hq]; rfl, rfl⟩

/-- C8: persisting a Conversation State record with `ConversationStore.set`
and reloading it with `ConversationStore.get` yields the very record that was
stored, whatever the prior store contents. -/
theorem c8_store_roundtrip (store : List (String × UserState)) (phone : String)
    (st : UserState) :
    ConversationStore.get (ConversationStore.set store phone st) phone = some st :=
  dictGet_insert_self store phone st

end WhatsappBot
